import Mathlib

/-!
Verification of the turn-orchestration core of the coreplus bot
(`src/typescript_nodejs/src/dialogs/main/index.ts`, class `MainDialog`).

The router is shallowly embedded as pure Lean functions.  The external
collaborators — the dialog-stack engine, the LUIS intent classifier, the
localization lookup and the interruption policy — are modelled as an
oracle (`Engine`, `Localizer`) supplying the results of their calls, and
every externally visible operation the router performs is recorded in a
trace of `Action`s, in the order the source performs them.
-/

namespace CorePlus

/-- JavaScript `String.prototype.trim`: strip leading and trailing
whitespace. -/
def jsTrim (s : String) : String :=
  ⟨((s.data.dropWhile Char.isWhitespace).reverse.dropWhile Char.isWhitespace).reverse⟩

/-- JavaScript `String.prototype.toLowerCase` (character-wise lower-casing;
the ASCII mapping suffices for the strings routed here). -/
def jsToLower (s : String) : String :=
  ⟨s.data.map Char.toLower⟩

/-- Modelled from the spec: the `UserData` class
(`src/typescript_nodejs/src/dialogs/shared/userData.ts`, not under `src/`) —
a persisted per-user record currently holding `locale : string | empty`,
created with a default empty locale. -/
structure UserData where
  locale : String := ""
deriving DecidableEq, Repr

/-- Dialog-turn statuses.  In `botbuilder-dialogs`, `DialogTurnStatus` is a
string enum (`empty = 'empty'`, `waiting = 'waiting'`, `complete = 'complete'`,
`cancelled = 'cancelled'`); an engine anomaly can surface as any other string,
so statuses are modelled as `String` with the enum members as constants. -/
def DialogTurnStatus.empty : String := "empty"

def DialogTurnStatus.waiting : String := "waiting"

def DialogTurnStatus.complete : String := "complete"

def DialogTurnStatus.cancelled : String := "cancelled"

/-- Result of a dialog-stack operation: a status plus an opaque payload
(the `result?: any` field, modelled as an opaque tag). -/
structure DialogTurnResult where
  status : String
  result : Option Nat := none
deriving DecidableEq, Repr

/-- Constant `DIALOG_TURN_RESULT_DEFAULT` (line 28 of the source):
`{ status: DialogTurnStatus.waiting }`. -/
def DIALOG_TURN_RESULT_DEFAULT : DialogTurnResult :=
  { status := DialogTurnStatus.waiting }

/-- Constant `QnADialog.name`: the id under which the QnA (answer-service) dialog is
registered on the stack. -/
def QnADialogName : String := "QnADialog"

/-- Constant `CancelDialog.name`. -/
def CancelDialogName : String := "CancelDialog"

/-- Constant `GreetingDialog.name`. -/
def GreetingDialogName : String := "GreetingDialog"

/-- Constant `WelcomeDialog.name`. -/
def WelcomeDialogName : String := "WelcomeDialog"

/-- Constant `GREETING_INTENT` (line 18). -/
def GREETING_INTENT : String := "Greeting"

/-- Constant `NONE_INTENT` (line 19). -/
def NONE_INTENT : String := "None"

/-- Constant `LUIS_CONFIDENCE_THRESHOLD` (line 22): `0.7`, exact as a rational. -/
def LUIS_CONFIDENCE_THRESHOLD : ℚ := 7/10

/-- Output of the intent classifier for one utterance: ranked intents with
confidences, plus an opaque entities payload. -/
structure RecognizerResult where
  intents : List (String × ℚ)
  entities : Nat
deriving DecidableEq, Repr

/-- Modelled from the `botbuilder-ai` library (external collaborator):
`LuisRecognizer.topIntent(results, defaultIntent, minScore)` scans the intents
keeping the best score seen so far (initially `-1`), admitting an intent only
when its score beats the running best and reaches `minScore`; when no intent
qualifies the `defaultIntent` is returned. -/
def LuisRecognizer.topIntent (results : RecognizerResult)
    (defaultIntent : String := "None") (minScore : ℚ := 0) : String :=
  let p := results.intents.foldl
    (fun (acc : String × ℚ) nv =>
      if nv.2 > acc.2 ∧ nv.2 ≥ minScore then (nv.1, nv.2) else acc)
    ("", -1)
  if p.1 = "" then defaultIntent else p.1

/-- The localization lookup (`localizer`, external interface): process default
locale, the configured supported locales, and the string table. -/
structure Localizer where
  getLocale : String
  getLocales : List String
  gettext : String → String → String

/-- Constant `ActivityTypes.Message`. -/
def ActivityTypes.message : String := "message"

/-- Constant `ActivityTypes.ConversationUpdate`. -/
def ActivityTypes.conversationUpdate : String := "conversationUpdate"

/-- One inbound event (`context.activity`): kind, raw text, attachment list,
locale hint, members added and the recipient (the bot), as the router reads
them.  Attachments are opaque; only their presence and count matter. -/
structure Activity where
  type : String
  text : Option String := none
  locale : Option String := none
  attachments : Option (List Unit) := none
  membersAdded : List String := []
  recipientId : String := ""
deriving DecidableEq, Repr

/-- The slice of the `DialogContext` the router reads and writes: the id of
the currently active dialog (top of the stack) and the `context.responded`
flag ("has the turn produced a reply"). -/
structure DCState where
  activeDialog : Option String
  responded : Bool
deriving DecidableEq, Repr

/-- Externally visible operations the router performs, in source order. -/
inductive Action where
  | sendActivity (text : String)
  | setUserData (u : UserData)
  | cancelAllDialogs
  | beginDialog (name : String) (options : Option Nat)
  | continueDialog
  | repromptDialog
  | recognizeCall (locale : String)
deriving DecidableEq, Repr

/-- Oracle for the external collaborators: the dialog-stack engine's response
to the n-th `continueDialog` call of the turn (result, active dialog
afterwards, whether the continued dialog replied), the response to
`beginDialog name`, whether `repromptDialog` replies, the classifier keyed by
locale, and the interruption policy (an opaque predicate of the active dialog
id and the effective top intent, which may itself reply). -/
structure Engine where
  continueResult : Nat → DialogTurnResult
  continueActive : Nat → Option String
  continueResponds : Nat → Bool
  beginResult : String → DialogTurnResult
  beginActive : String → Option String
  beginResponds : String → Bool
  repromptResponds : Bool
  recognize : String → RecognizerResult
  isTurnInterrupted : Option String → String → Bool
  interruptResponds : Bool

/-- Outcome of one routing invocation: the returned `DialogTurnResult`, the
final dialog-context state, the persisted user data, and the trace of
operations performed. -/
structure RouteOutcome where
  turnResult : DialogTurnResult
  dc : DCState
  store : Option UserData
  trace : List Action
deriving DecidableEq, Repr

/-- Method `MainDialog.getUserLocale` (lines 275–284): `undefined` when no user data
is stored, the stored locale otherwise. -/
def getUserLocale (store : Option UserData) : Option String :=
  match store with
  | none => none
  | some u => some u.locale

/-- Method `MainDialog.setUserLocale` (lines 292–300): read the user data (a fresh
default when absent), and only when the new locale differs from the stored
one, is not the empty string and is not `undefined`, store the updated record.
Returns the store together with the persisting `set` calls performed. -/
def setUserLocale (store : Option UserData) (newLocale : Option String) :
    Option UserData × List Action :=
  let userData : UserData := store.getD {}
  if some userData.locale ≠ newLocale ∧ newLocale ≠ some "" ∧ newLocale ≠ none then
    let u : UserData := { userData with locale := newLocale.getD "" }
    (some u, [Action.setUserData u])
  else
    (store, [])

/-- The locale hint of line 106: `context.activity.locale || localizer.getLocale()`
(an absent or empty hint falls back to the library default). -/
def hintedLocale (loc : Localizer) (activity : Activity) : String :=
  match activity.locale with
  | some s => if s = "" then loc.getLocale else s
  | none => loc.getLocale

/-- Lines 106–110: the hinted locale, coerced to the library default when it
is not one of the configured supported locales. -/
def validLocale (loc : Localizer) (activity : Activity) : String :=
  if hintedLocale loc activity ∈ loc.getLocales then hintedLocale loc activity
  else loc.getLocale

/-- Locale resolution (lines 103–113 of `onContinueDialog`): use the stored
locale when non-empty; otherwise take the turn's locale hint, falling back to
the library default, coerce an unsupported value to the default, and persist
the result through `setUserLocale`. -/
def resolveLocale (loc : Localizer) (store : Option UserData)
    (activity : Activity) : String × Option UserData × List Action :=
  if (getUserLocale store).getD "" = "" then
    let p := setUserLocale store (some (validLocale loc activity))
    (validLocale loc activity, p.1, p.2)
  else
    ((getUserLocale store).getD "", store, [])

/-- Step (i) of the message routing (lines 158–165): when the active dialog
is the QnA dialog, continue it, and normalize a `'complete'` status to
`empty`.  Returns the turn result, the context state, the trace, and the
number of `continueDialog` calls consumed. -/
def qnaContinue (eng : Engine) (dc0 : DCState) :
    DialogTurnResult × DCState × List Action × Nat :=
  if dc0.activeDialog = some QnADialogName then
    let tr := eng.continueResult 0
    let tr1 := if tr.status = "complete" then
        { tr with status := DialogTurnStatus.empty } else tr
    (tr1,
     { activeDialog := eng.continueActive 0,
       responded := dc0.responded || eng.continueResponds 0 },
     [Action.continueDialog], 1)
  else
    (DIALOG_TURN_RESULT_DEFAULT, dc0, [], 0)

/-- Steps (iv)/(v) of the message routing (lines 174–186): on an
interruption, reprompt an active non-Cancel dialog, continue an active Cancel
dialog, and do nothing when no dialog is active; on no interruption, continue
whatever dialog is active. -/
def interruptionStep (eng : Engine) (dcI : DCState) (tr1 : DialogTurnResult)
    (n1 : Nat) (interrupted : Bool) :
    DialogTurnResult × DCState × List Action :=
  if interrupted then
    match dcI.activeDialog with
    | some id =>
      if id ≠ CancelDialogName then
        (tr1, { dcI with responded := dcI.responded || eng.repromptResponds },
         [Action.repromptDialog])
      else
        (eng.continueResult n1,
         { activeDialog := eng.continueActive n1,
           responded := dcI.responded || eng.continueResponds n1 },
         [Action.continueDialog])
    | none => (tr1, dcI, [])
  else
    (eng.continueResult n1,
     { activeDialog := eng.continueActive n1,
       responded := dcI.responded || eng.continueResponds n1 },
     [Action.continueDialog])

/-- Fallback dispatch (lines 188–230): only when nothing has been sent back
to the user this turn, switch on the turn status — on `empty`, begin the
Greeting dialog with the recognized entities as options when the effective
top intent is Greeting, and the QnA dialog with no options otherwise (the
`None` case and the `default` case coincide); on `waiting` or `complete` do
nothing; on any other status cancel every dialog on the stack. -/
def fallbackDispatch (eng : Engine) (dc : DCState) (store : Option UserData)
    (topIntent : String) (entities : Nat) (turnResult : DialogTurnResult) :
    RouteOutcome :=
  if dc.responded = false then
    if turnResult.status = DialogTurnStatus.empty then
      if topIntent = GREETING_INTENT then
        { turnResult := eng.beginResult GreetingDialogName,
          dc := { activeDialog := eng.beginActive GreetingDialogName,
                  responded := dc.responded || eng.beginResponds GreetingDialogName },
          store := store,
          trace := [Action.beginDialog GreetingDialogName (some entities)] }
      else
        { turnResult := eng.beginResult QnADialogName,
          dc := { activeDialog := eng.beginActive QnADialogName,
                  responded := dc.responded || eng.beginResponds QnADialogName },
          store := store,
          trace := [Action.beginDialog QnADialogName none] }
    else if turnResult.status = DialogTurnStatus.waiting then
      { turnResult := turnResult, dc := dc, store := store, trace := [] }
    else if turnResult.status = DialogTurnStatus.complete then
      { turnResult := turnResult, dc := dc, store := store, trace := [] }
    else
      { turnResult := turnResult,
        dc := { dc with activeDialog := none },
        store := store,
        trace := [Action.cancelAllDialogs] }
  else
    { turnResult := turnResult, dc := dc, store := store, trace := [] }

/-- Method `MainDialog.routeMessage` (lines 138–234).  Branches, in source order:
the attachment-only reply, the localized restart command (reset user data
keeping the locale, cancel all dialogs, begin Welcome), and the general path
(continue an active QnA dialog, classify, evaluate the interruption policy,
reprompt / continue accordingly, then fallback dispatch). -/
def routeMessage (loc : Localizer) (eng : Engine) (dc0 : DCState)
    (store0 : Option UserData) (activity : Activity) (locale : String) :
    RouteOutcome :=
  let utterance : String := jsToLower (jsTrim (activity.text.getD ""))
  if utterance.length = 0 ∧ 0 < (activity.attachments.getD []).length then
    { turnResult := DIALOG_TURN_RESULT_DEFAULT,
      dc := { dc0 with responded := true },
      store := store0,
      trace := [Action.sendActivity (loc.gettext locale "attachmentResponse")] }
  else if utterance = jsToLower (loc.gettext locale "restartCommand") then
    let userData : UserData := { locale := locale }
    { turnResult := eng.beginResult WelcomeDialogName,
      dc := { activeDialog := eng.beginActive WelcomeDialogName,
              responded := dc0.responded || eng.beginResponds WelcomeDialogName },
      store := some userData,
      trace := [Action.setUserData userData, Action.cancelAllDialogs,
                Action.beginDialog WelcomeDialogName none] }
  else
    let q := qnaContinue eng dc0
    let results := eng.recognize locale
    let topIntent := LuisRecognizer.topIntent results "None" LUIS_CONFIDENCE_THRESHOLD
    let interrupted := eng.isTurnInterrupted q.2.1.activeDialog topIntent
    let dcI : DCState :=
      { q.2.1 with responded := q.2.1.responded || eng.interruptResponds }
    let step := interruptionStep eng dcI q.1 q.2.2.2 interrupted
    let fb := fallbackDispatch eng step.2.1 store0 topIntent results.entities step.1
    { turnResult := fb.turnResult,
      dc := fb.dc,
      store := fb.store,
      trace := q.2.2.1 ++ [Action.recognizeCall locale] ++ step.2.2 ++ fb.trace }

/-- Method `MainDialog.welcomeUser` (lines 241–268): on a conversation update, begin
the Welcome dialog once for each newly added member whose id equals the
recipient (the bot) id. -/
def welcomeUser (eng : Engine) (dc0 : DCState) (activity : Activity) :
    DialogTurnResult × DCState × List Action :=
  activity.membersAdded.foldl
    (fun acc m =>
      if m = activity.recipientId then
        (eng.beginResult WelcomeDialogName,
         { activeDialog := eng.beginActive WelcomeDialogName,
           responded := acc.2.1.responded || eng.beginResponds WelcomeDialogName },
         acc.2.2 ++ [Action.beginDialog WelcomeDialogName none])
      else acc)
    (DIALOG_TURN_RESULT_DEFAULT, dc0, [])

/-- Method `MainDialog.onContinueDialog` (lines 99–136): resolve the locale once,
then dispatch on the activity type — message routing for messages, the
welcome procedure for conversation updates, the default result otherwise. -/
def onContinueDialog (loc : Localizer) (eng : Engine) (dc0 : DCState)
    (store0 : Option UserData) (activity : Activity) : RouteOutcome :=
  let r := resolveLocale loc store0 activity
  if activity.type = ActivityTypes.message then
    let o := routeMessage loc eng dc0 r.2.1 activity r.1
    { o with trace := r.2.2 ++ o.trace }
  else if activity.type = ActivityTypes.conversationUpdate then
    let w := welcomeUser eng dc0 activity
    { turnResult := w.1, dc := w.2.1, store := r.2.1, trace := r.2.2 ++ w.2.2 }
  else
    { turnResult := DIALOG_TURN_RESULT_DEFAULT, dc := dc0, store := r.2.1,
      trace := r.2.2 }

/-- A store is well-formed for a localizer when any stored locale is either
still unset or one of the supported locales. -/
def storeOK (loc : Localizer) (store : Option UserData) : Prop :=
  ∀ u, store = some u → u.locale = "" ∨ u.locale ∈ loc.getLocales

/-- The effective top intent `routeMessage` computes for a turn: the
classifier's result for the resolved locale, thresholded at
`LUIS_CONFIDENCE_THRESHOLD` with default `None`. -/
def effectiveTopIntent (eng : Engine) (locale : String) : String :=
  LuisRecognizer.topIntent (eng.recognize locale) "None" LUIS_CONFIDENCE_THRESHOLD

/-- Whether an outcome's trace begins any dialog. -/
def firesBegin (o : RouteOutcome) : Bool :=
  o.trace.any fun a =>
    match a with
    | Action.beginDialog _ _ => true
    | _ => false

/-- A minimal concrete localizer used to instantiate theorems: English only,
with the identity string table. -/
def locW : Localizer :=
  { getLocale := "en", getLocales := ["en"], gettext := fun _ key => key }

/-- A minimal concrete engine used to instantiate theorems. -/
def engW : Engine :=
  { continueResult := fun _ => { status := DialogTurnStatus.waiting }
    continueActive := fun _ => none
    continueResponds := fun _ => false
    beginResult := fun _ => { status := DialogTurnStatus.waiting, result := some 1 }
    beginActive := fun n => some n
    beginResponds := fun _ => false
    repromptResponds := false
    recognize := fun _ => { intents := [], entities := 0 }
    isTurnInterrupted := fun _ _ => false
    interruptResponds := false }

end CorePlus

namespace CorePlus

theorem topIntent_foldl_fixed (minScore : ℚ) (l : List (String × ℚ))
    (acc : String × ℚ) (h : ∀ p ∈ l, p.2 < minScore) :
    l.foldl
      (fun (acc : String × ℚ) nv =>
        if nv.2 > acc.2 ∧ nv.2 ≥ minScore then (nv.1, nv.2) else acc)
      acc = acc := by
  induction l generalizing acc with
  | nil => rfl
  | cons a t ih =>
    simp only [List.foldl_cons]
    rw [if_neg]
    · exact ih acc fun p hp => h p (List.mem_cons_of_mem a hp)
    · rintro ⟨-, h2⟩
      exact absurd h2 (not_le.mpr (h a (List.mem_cons_self a t)))

theorem qnaContinue_trace (eng : Engine) (dc0 : DCState) :
    (qnaContinue eng dc0).2.2.1 = [] ∨
    (qnaContinue eng dc0).2.2.1 = [Action.continueDialog] := by
  unfold qnaContinue
  split
  · right; rfl
  · left; rfl

theorem interruptionStep_trace (eng : Engine) (dcI : DCState)
    (tr1 : DialogTurnResult) (n1 : Nat) (interrupted : Bool) :
    (interruptionStep eng dcI tr1 n1 interrupted).2.2 = [] ∨
    (interruptionStep eng dcI tr1 n1 interrupted).2.2 = [Action.repromptDialog] ∨
    (interruptionStep eng dcI tr1 n1 interrupted).2.2 = [Action.continueDialog] := by
  unfold interruptionStep
  split
  · split
    · split
      · right; left; rfl
      · right; right; rfl
    · left; rfl
  · right; right; rfl

theorem fallbackDispatch_trace (eng : Engine) (dc : DCState)
    (store : Option UserData) (topIntent : String) (entities : Nat)
    (tr : DialogTurnResult) :
    (fallbackDispatch eng dc store topIntent entities tr).trace = [] ∨
    (fallbackDispatch eng dc store topIntent entities tr).trace =
      [Action.cancelAllDialogs] ∨
    (∃ n o, (fallbackDispatch eng dc store topIntent entities tr).trace =
      [Action.beginDialog n o]) := by
  unfold fallbackDispatch
  split
  · split
    · split
      · right; right; exact ⟨GreetingDialogName, some entities, rfl⟩
      · right; right; exact ⟨QnADialogName, none, rfl⟩
    · split
      · left; rfl
      · split
        · left; rfl
        · right; left; rfl
  · left; rfl

theorem fallbackDispatch_inert (eng : Engine) (dc : DCState)
    (store : Option UserData) (topIntent : String) (entities : Nat)
    (tr : DialogTurnResult)
    (h : tr.status = DialogTurnStatus.waiting ∨ tr.status = DialogTurnStatus.complete) :
    fallbackDispatch eng dc store topIntent entities tr =
      { turnResult := tr, dc := dc, store := store, trace := [] } := by
  unfold fallbackDispatch
  by_cases hresp : dc.responded = false
  · rw [if_pos hresp]
    rcases h with h | h
    · rw [if_neg, if_pos h]
      rw [h]; decide
    · rw [if_neg, if_neg, if_pos h]
      · rw [h]; decide
      · rw [h]; decide
  · rw [if_neg hresp]

/-- C7: on a message turn whose trimmed text is empty and which carries at
least one attachment, the router sends exactly one canned attachment reply in
the resolved locale and returns the default waiting result, beginning or
continuing no dialog and leaving the store untouched. -/
theorem attachment_only_turn (loc : Localizer) (eng : Engine) (dc0 : DCState)
    (store0 : Option UserData) (activity : Activity) (locale : String)
    (hempty : (jsToLower (jsTrim (activity.text.getD ""))).length = 0)
    (hatt : 0 < (activity.attachments.getD []).length) :
    routeMessage loc eng dc0 store0 activity locale =
      { turnResult := DIALOG_TURN_RESULT_DEFAULT,
        dc := { dc0 with responded := true },
        store := store0,
        trace := [Action.sendActivity (loc.gettext locale "attachmentResponse")] } := by
  unfold routeMessage
  rw [if_pos ⟨hempty, hatt⟩]

theorem attachment_only_turn_witness :
    routeMessage locW engW ⟨none, false⟩ none
        { type := ActivityTypes.message, attachments := some [()] } "en" =
      { turnResult := DIALOG_TURN_RESULT_DEFAULT,
        dc := { activeDialog := none, responded := true },
        store := none,
        trace := [Action.sendActivity "attachmentResponse"] } :=
  attachment_only_turn locW engW ⟨none, false⟩ none
    { type := ActivityTypes.message, attachments := some [()] } "en"
    (by decide) (by decide)

/-- C4: when every intent's confidence is below the 0.7 threshold, the
effective top intent — the value `routeMessage` passes to the interruption
policy and the fallback dispatch — is `None` regardless of the raw labels. -/
theorem low_confidence_forces_none (results : RecognizerResult)
    (hlow : ∀ p ∈ results.intents, p.2 < LUIS_CONFIDENCE_THRESHOLD) :
    LuisRecognizer.topIntent results "None" LUIS_CONFIDENCE_THRESHOLD =
      NONE_INTENT := by
  unfold LuisRecognizer.topIntent
  rw [topIntent_foldl_fixed LUIS_CONFIDENCE_THRESHOLD results.intents ("", -1) hlow]
  rfl

theorem low_confidence_forces_none_witness :
    LuisRecognizer.topIntent
        { intents := [("Greeting", 69/100), ("Help", 1/2)], entities := 0 }
        "None" LUIS_CONFIDENCE_THRESHOLD = NONE_INTENT :=
  low_confidence_forces_none
    { intents := [("Greeting", 69/100), ("Help", 1/2)], entities := 0 }
    (by norm_num [LUIS_CONFIDENCE_THRESHOLD])

/-- C10: `setUserLocale` is a no-op on the persisted store when the new
locale is the empty string, is `undefined`, or equals the stored locale; a
persisting write occurs exactly when a differing, non-empty locale is
supplied — in particular a stored non-empty locale is never overwritten with
an empty value through this operation. -/
theorem setUserLocale_frame (store : Option UserData) (u : UserData) (s : String) :
    setUserLocale store (some "") = (store, []) ∧
    setUserLocale store none = (store, []) ∧
    setUserLocale (some u) (some u.locale) = (some u, []) ∧
    ((setUserLocale store (some s)).2 ≠ [] ↔
      ((store.getD {}).locale ≠ s ∧ s ≠ "")) ∧
    ((store.getD {}).locale ≠ s → s ≠ "" →
      setUserLocale store (some s) =
        (some { store.getD {} with locale := s },
         [Action.setUserData { store.getD {} with locale := s }])) := by
  unfold setUserLocale
  refine ⟨by simp, by simp, by simp, ?_, ?_⟩
  · by_cases h1 : (store.getD {}).locale = s
    · simp [h1]
    · by_cases h2 : s = ""
      · simp [h1, h2]
      · simp [h1, h2]
  · intro h1 h2
    rw [if_pos]
    · rfl
    · refine ⟨?_, ?_, ?_⟩ <;> simp [h1, h2]

/-- C9: on a message turn whose trimmed text is non-empty, attachments are
ignored — the outcome is identical to the same turn with the attachments
removed (the turn proceeds through restart check, classification,
interruption and fallback exactly as a text-only turn), and no canned reply
(no `sendActivity` at all) is produced on such a turn. -/
theorem nonempty_text_ignores_attachments (loc : Localizer) (eng : Engine)
    (dc0 : DCState) (store0 : Option UserData) (activity : Activity)
    (locale : String)
    (hne : (jsToLower (jsTrim (activity.text.getD ""))).length ≠ 0) :
    routeMessage loc eng dc0 store0 activity locale =
      routeMessage loc eng dc0 store0 { activity with attachments := none } locale ∧
    ∀ s, Action.sendActivity s ∉
      (routeMessage loc eng dc0 store0 activity locale).trace := by
  have hguard : ¬((jsToLower (jsTrim (activity.text.getD ""))).length = 0 ∧
      0 < (activity.attachments.getD []).length) := fun h => hne h.1
  constructor
  · simp only [routeMessage]
    rw [if_neg hguard]
    simp only [Option.getD_none, List.length_nil, lt_self_iff_false, and_false,
      if_false]
  · intro s
    simp only [routeMessage]
    rw [if_neg hguard]
    split
    · simp
    · intro hmem
      simp only [List.append_assoc, List.mem_append, List.mem_cons,
        List.not_mem_nil, or_false, List.mem_singleton] at hmem
      rcases hmem with h | h | h | h
      · rcases qnaContinue_trace eng dc0 with he | he <;>
          rw [he] at h <;> simp at h
      · exact Action.noConfusion h
      · rcases interruptionStep_trace eng _ _ _ _ with he | he | he <;>
          rw [he] at h <;> simp at h
      · rcases fallbackDispatch_trace eng _ store0 _ _ _ with he | he | he
        · rw [he] at h; simp at h
        · rw [he] at h; simp at h
        · obtain ⟨n, o, he⟩ := he
          rw [he] at h; simp at h

theorem nonempty_text_ignores_attachments_witness :
    routeMessage locW engW ⟨none, false⟩ none
        { type := ActivityTypes.message, text := some "hello" } "en" =
      routeMessage locW engW ⟨none, false⟩ none
        { type := ActivityTypes.message, text := some "hello",
          attachments := none } "en" ∧
    ∀ s, Action.sendActivity s ∉
      (routeMessage locW engW ⟨none, false⟩ none
        { type := ActivityTypes.message, text := some "hello" } "en").trace :=
  nonempty_text_ignores_attachments locW engW ⟨none, false⟩ none
    { type := ActivityTypes.message, text := some "hello" } "en" (by decide)

/-- C2: fallback dispatch begins a dialog exactly when nothing has been sent
back to the user this turn and the turn status after the
interruption/continuation steps is `empty`; when it fires, a `Greeting`
effective top intent begins the Greeting dialog with the recognized entities
as options and every other intent (including `None`) begins the QnA dialog
with no options; when the status is `waiting` or `complete` nothing further
is done.  `routeMessage` invokes this dispatch on every non-restart,
non-attachment message turn. -/
theorem fallback_dispatch_spec (eng : Engine) (dc : DCState)
    (store : Option UserData) (topIntent : String) (entities : Nat)
    (tr : DialogTurnResult) :
    (firesBegin (fallbackDispatch eng dc store topIntent entities tr) = true ↔
      (dc.responded = false ∧ tr.status = DialogTurnStatus.empty)) ∧
    (dc.responded = false → tr.status = DialogTurnStatus.empty →
      fallbackDispatch eng dc store topIntent entities tr =
        (if topIntent = GREETING_INTENT then
          { turnResult := eng.beginResult GreetingDialogName,
            dc := { activeDialog := eng.beginActive GreetingDialogName,
                    responded := dc.responded || eng.beginResponds GreetingDialogName },
            store := store,
            trace := [Action.beginDialog GreetingDialogName (some entities)] }
         else
          { turnResult := eng.beginResult QnADialogName,
            dc := { activeDialog := eng.beginActive QnADialogName,
                    responded := dc.responded || eng.beginResponds QnADialogName },
            store := store,
            trace := [Action.beginDialog QnADialogName none] })) ∧
    ((tr.status = DialogTurnStatus.waiting ∨ tr.status = DialogTurnStatus.complete) →
      fallbackDispatch eng dc store topIntent entities tr =
        { turnResult := tr, dc := dc, store := store, trace := [] }) := by
  refine ⟨?_, ?_, ?_⟩
  · unfold fallbackDispatch firesBegin
    by_cases hresp : dc.responded = false
    · by_cases hst : tr.status = DialogTurnStatus.empty
      · rw [if_pos hresp, if_pos hst]
        by_cases hint : topIntent = GREETING_INTENT
        · rw [if_pos hint]; simp [hresp, hst]
        · rw [if_neg hint]; simp [hresp, hst]
      · rw [if_pos hresp, if_neg hst]
        split
        · simp [hst]
        · split
          · simp [hst]
          · simp [hst]
    · rw [if_neg hresp]; simp [hresp]
  · intro hresp hst
    unfold fallbackDispatch
    rw [if_pos hresp, if_pos hst]
  · intro hst
    exact fallbackDispatch_inert eng dc store topIntent entities tr hst

/-- C8 (amended): whenever fallback dispatch runs with nothing sent back to
the user this turn and a turn status that is neither `empty`, `waiting` nor
`complete`, the router cancels every dialog on the stack as a fail-safe reset
rather than propagating an error. -/
theorem anomalous_status_failsafe (eng : Engine) (dc : DCState)
    (store : Option UserData) (topIntent : String) (entities : Nat)
    (tr : DialogTurnResult)
    (hresp : dc.responded = false)
    (h1 : tr.status ≠ DialogTurnStatus.empty)
    (h2 : tr.status ≠ DialogTurnStatus.waiting)
    (h3 : tr.status ≠ DialogTurnStatus.complete) :
    fallbackDispatch eng dc store topIntent entities tr =
      { turnResult := tr, dc := { dc with activeDialog := none }, store := store,
        trace := [Action.cancelAllDialogs] } := by
  unfold fallbackDispatch
  rw [if_pos hresp, if_neg h1, if_neg h2, if_neg h3]

theorem anomalous_status_failsafe_witness :
    fallbackDispatch engW ⟨some QnADialogName, false⟩ none "None" 0
        { status := DialogTurnStatus.cancelled } =
      { turnResult := { status := DialogTurnStatus.cancelled },
        dc := { activeDialog := none, responded := false }, store := none,
        trace := [Action.cancelAllDialogs] } :=
  anomalous_status_failsafe engW ⟨some QnADialogName, false⟩ none "None" 0
    { status := DialogTurnStatus.cancelled }
    rfl (by decide) (by decide) (by decide)

/-- An engine on which a turn ends with an unrecognized status while a reply
was already sent: the QnA dialog replies and reports `cancelled`. -/
def engC8 : Engine :=
  { continueResult := fun _ => { status := DialogTurnStatus.cancelled }
    continueActive := fun _ => some QnADialogName
    continueResponds := fun _ => true
    beginResult := fun _ => { status := DialogTurnStatus.waiting }
    beginActive := fun n => some n
    beginResponds := fun _ => false
    repromptResponds := false
    recognize := fun _ => { intents := [], entities := 0 }
    isTurnInterrupted := fun _ _ => false
    interruptResponds := false }

/-- C8 counterexample: a turn on which a dialog already replied finishes with
the unrecognized status `cancelled` and the router never cancels the stack —
the fail-safe reset is guarded by the "nothing sent yet" check, so the
universally stated invariant fails. -/
theorem unrecognized_status_without_reset :
    (routeMessage locW engC8 ⟨some QnADialogName, false⟩ none
        { type := ActivityTypes.message, text := some "hello" } "en").turnResult.status =
      DialogTurnStatus.cancelled ∧
    DialogTurnStatus.cancelled ≠ DialogTurnStatus.empty ∧
    DialogTurnStatus.cancelled ≠ DialogTurnStatus.waiting ∧
    DialogTurnStatus.cancelled ≠ DialogTurnStatus.complete ∧
    Action.cancelAllDialogs ∉
      (routeMessage locW engC8 ⟨some QnADialogName, false⟩ none
        { type := ActivityTypes.message, text := some "hello" } "en").trace := by
  decide

/-- C1: on a message turn whose lowercased trimmed utterance equals the
localized restart command for the resolved locale (which, with a stored
non-empty locale, is that stored locale), the router persists a fresh
`UserData` retaining only the locale, cancels every dialog on the stack,
begins the Welcome dialog and returns its result; the trace shows no other
routing step runs — in particular no classifier call. -/
theorem restart_resets_and_welcomes (loc : Localizer) (eng : Engine)
    (dc0 : DCState) (u : UserData) (activity : Activity)
    (hloc : u.locale ≠ "")
    (htype : activity.type = ActivityTypes.message)
    (hu : jsToLower (jsTrim (activity.text.getD "")) =
      jsToLower (loc.gettext u.locale "restartCommand"))
    (hcmd : (jsToLower (loc.gettext u.locale "restartCommand")).length ≠ 0) :
    onContinueDialog loc eng dc0 (some u) activity =
      { turnResult := eng.beginResult WelcomeDialogName,
        dc := { activeDialog := eng.beginActive WelcomeDialogName,
                responded := dc0.responded || eng.beginResponds WelcomeDialogName },
        store := some { locale := u.locale },
        trace := [Action.setUserData { locale := u.locale }, Action.cancelAllDialogs,
                  Action.beginDialog WelcomeDialogName none] } := by
  have hres : resolveLocale loc (some u) activity = (u.locale, some u, []) := by
    unfold resolveLocale
    rw [if_neg]
    · rfl
    · simpa [getUserLocale] using hloc
  simp only [onContinueDialog, hres]
  rw [if_pos htype]
  simp only [routeMessage]
  rw [if_neg (fun h => hcmd (hu ▸ h.1)), if_pos hu]
  simp

theorem restart_resets_and_welcomes_witness :
    onContinueDialog locW engW ⟨none, false⟩ (some { locale := "en" })
        { type := ActivityTypes.message, text := some "  RestartCommand " } =
      { turnResult := { status := DialogTurnStatus.waiting, result := some 1 },
        dc := { activeDialog := some WelcomeDialogName, responded := false },
        store := some { locale := "en" },
        trace := [Action.setUserData { locale := "en" }, Action.cancelAllDialogs,
                  Action.beginDialog WelcomeDialogName none] } :=
  restart_resets_and_welcomes locW engW ⟨none, false⟩ { locale := "en" }
    { type := ActivityTypes.message, text := some "  RestartCommand " }
    (by decide) rfl (by decide) (by decide)

theorem getUserLocale_getD (store : Option UserData) :
    (getUserLocale store).getD "" = (store.getD {}).locale := by
  cases store <;> rfl

theorem hintedLocale_ne_empty (loc : Localizer) (a : Activity)
    (hne : loc.getLocale ≠ "") : hintedLocale loc a ≠ "" := by
  unfold hintedLocale
  cases ha : a.locale with
  | none => exact hne
  | some s =>
    dsimp only
    split
    · exact hne
    · next h => exact h

theorem validLocale_mem (loc : Localizer) (a : Activity)
    (hdef : loc.getLocale ∈ loc.getLocales) :
    validLocale loc a ∈ loc.getLocales := by
  unfold validLocale
  split
  · next h => exact h
  · exact hdef

theorem validLocale_ne_empty (loc : Localizer) (a : Activity)
    (hne : loc.getLocale ≠ "") : validLocale loc a ≠ "" := by
  unfold validLocale
  split
  · exact hintedLocale_ne_empty loc a hne
  · exact hne

theorem resolveLocale_fresh (loc : Localizer) (store : Option UserData)
    (a : Activity) (h0 : (store.getD {}).locale = "")
    (hne : loc.getLocale ≠ "") :
    resolveLocale loc store a =
      (validLocale loc a, some { locale := validLocale loc a },
       [Action.setUserData { locale := validLocale loc a }]) := by
  unfold resolveLocale
  rw [if_pos (by rw [getUserLocale_getD, h0])]
  unfold setUserLocale
  rw [if_pos]
  · rfl
  · refine ⟨?_, ?_, ?_⟩
    · rw [h0]
      simpa using (validLocale_ne_empty loc a hne).symm
    · simpa using validLocale_ne_empty loc a hne
    · simp

theorem resolveLocale_stored (loc : Localizer) (u : UserData) (a : Activity)
    (h0 : u.locale ≠ "") :
    resolveLocale loc (some u) a = (u.locale, some u, []) := by
  unfold resolveLocale
  rw [if_neg]
  · rfl
  · simpa [getUserLocale] using h0

/-- C3: locale resolution — with the library default among the supported
locales and non-empty, and any stored locale itself supported — always
resolves to a supported locale; a stored non-empty locale is used as is with
no write; the resolution preserves store well-formedness, performs at most
one persisted write, and a second resolution on the resulting store resolves
to the same locale and performs no write (one write, not two). -/
theorem locale_resolution_spec (loc : Localizer) (store : Option UserData)
    (a1 a2 : Activity)
    (hdef : loc.getLocale ∈ loc.getLocales)
    (hne : loc.getLocale ≠ "")
    (hok : storeOK loc store) :
    (resolveLocale loc store a1).1 ∈ loc.getLocales ∧
    (∀ u, store = some u → u.locale ≠ "" →
      resolveLocale loc store a1 = (u.locale, store, [])) ∧
    storeOK loc (resolveLocale loc store a1).2.1 ∧
    (resolveLocale loc store a1).2.2.length ≤ 1 ∧
    resolveLocale loc (resolveLocale loc store a1).2.1 a2 =
      ((resolveLocale loc store a1).1, (resolveLocale loc store a1).2.1, []) := by
  by_cases h0 : (store.getD {}).locale = ""
  · have hres := resolveLocale_fresh loc store a1 h0 hne
    refine ⟨?_, ?_, ?_, ?_, ?_⟩
    · rw [hres]
      exact validLocale_mem loc a1 hdef
    · intro u hu hul
      subst hu
      exact absurd h0 (by simpa using hul)
    · rw [hres]
      intro v hv
      injection hv with hv
      right
      rw [← hv]
      exact validLocale_mem loc a1 hdef
    · rw [hres]
      simp
    · rw [hres]
      exact resolveLocale_stored loc { locale := validLocale loc a1 } a2
        (validLocale_ne_empty loc a1 hne)
  · rcases store with _ | u
    · exact absurd rfl h0
    · have hul : u.locale ≠ "" := by simpa using h0
      have hres := resolveLocale_stored loc u a1 hul
      refine ⟨?_, ?_, ?_, ?_, ?_⟩
      · rw [hres]
        rcases hok u rfl with h | h
        · exact absurd h hul
        · exact h
      · intro v hv hvl
        injection hv with hv
        subst hv
        exact hres
      · rw [hres]
        exact hok
      · rw [hres]
        simp
      · rw [hres]
        exact resolveLocale_stored loc u a2 hul

theorem locale_resolution_spec_witness :
    (resolveLocale locW none { type := ActivityTypes.message }).1 ∈ locW.getLocales ∧
    (∀ u, (none : Option UserData) = some u → u.locale ≠ "" →
      resolveLocale locW none { type := ActivityTypes.message } =
        (u.locale, none, [])) ∧
    storeOK locW (resolveLocale locW none { type := ActivityTypes.message }).2.1 ∧
    (resolveLocale locW none { type := ActivityTypes.message }).2.2.length ≤ 1 ∧
    resolveLocale locW
        (resolveLocale locW none { type := ActivityTypes.message }).2.1
        { type := ActivityTypes.message } =
      ((resolveLocale locW none { type := ActivityTypes.message }).1,
       (resolveLocale locW none { type := ActivityTypes.message }).2.1, []) :=
  locale_resolution_spec locW none { type := ActivityTypes.message }
    { type := ActivityTypes.message } (by decide) (by decide)
    (fun u hu => by cases hu)

/-- C5: on a non-restart, non-attachment message turn with the QnA dialog
active, the QnA dialog is continued before the classifier is invoked (the
trace starts with the continuation, then the classifier call); a `complete`
continuation status is normalized to `empty`; and when the continuation
completes, the stack empties, nothing replies and the policy reports no
interruption, the subsequent fallback dispatch sees the `empty` status and
begins a new dialog. -/
theorem qna_continued_before_classification (loc : Localizer) (eng : Engine)
    (dc0 : DCState) (store0 : Option UserData) (activity : Activity)
    (locale : String)
    (hactive : dc0.activeDialog = some QnADialogName)
    (hna : ¬((jsToLower (jsTrim (activity.text.getD ""))).length = 0 ∧
      0 < (activity.attachments.getD []).length))
    (hnr : jsToLower (jsTrim (activity.text.getD "")) ≠
      jsToLower (loc.gettext locale "restartCommand")) :
    ((eng.continueResult 0).status = DialogTurnStatus.complete →
      (qnaContinue eng dc0).1 =
        { eng.continueResult 0 with status := DialogTurnStatus.empty }) ∧
    (∃ rest, (routeMessage loc eng dc0 store0 activity locale).trace =
      Action.continueDialog :: Action.recognizeCall locale :: rest) ∧
    ((eng.continueResult 0).status = DialogTurnStatus.complete →
      dc0.responded = false → eng.continueResponds 0 = false →
      eng.interruptResponds = false → eng.continueResponds 1 = false →
      eng.isTurnInterrupted (eng.continueActive 0)
        (effectiveTopIntent eng locale) = false →
      (eng.continueResult 1).status = DialogTurnStatus.empty →
      firesBegin (routeMessage loc eng dc0 store0 activity locale) = true) := by
  have hq : qnaContinue eng dc0 =
      (if (eng.continueResult 0).status = "complete" then
         { eng.continueResult 0 with status := DialogTurnStatus.empty }
       else eng.continueResult 0,
       { activeDialog := eng.continueActive 0,
         responded := dc0.responded || eng.continueResponds 0 },
       [Action.continueDialog], 1) := by
    unfold qnaContinue
    rw [if_pos hactive]
  refine ⟨?_, ?_, ?_⟩
  · intro h
    rw [hq]
    exact if_pos (h.trans rfl)
  · simp only [routeMessage]
    rw [if_neg hna, if_neg hnr]
    simp only [hq, List.append_assoc, List.cons_append, List.singleton_append,
      List.nil_append]
    exact ⟨_, rfl⟩
  · intro hcomp hdc hc0 hint hc1 hpol hst1
    rw [effectiveTopIntent] at hpol
    simp only [firesBegin, routeMessage]
    rw [if_neg hna, if_neg hnr]
    simp [hq, hdc, hc0, hint, hpol, hc1, hst1, interruptionStep, fallbackDispatch]
    split <;> simp

/-- An engine instantiating the C5 scenario: the active QnA dialog completes
on continuation, the stack is then empty, and nothing interrupts. -/
def engC5 : Engine :=
  { continueResult := fun n =>
      if n = 0 then { status := DialogTurnStatus.complete }
      else { status := DialogTurnStatus.empty }
    continueActive := fun _ => none
    continueResponds := fun _ => false
    beginResult := fun _ => { status := DialogTurnStatus.waiting, result := some 2 }
    beginActive := fun n => some n
    beginResponds := fun _ => false
    repromptResponds := false
    recognize := fun _ => { intents := [], entities := 0 }
    isTurnInterrupted := fun _ _ => false
    interruptResponds := false }

theorem qna_continued_before_classification_witness :
    ((engC5.continueResult 0).status = DialogTurnStatus.complete →
      (qnaContinue engC5 ⟨some QnADialogName, false⟩).1 =
        { engC5.continueResult 0 with status := DialogTurnStatus.empty }) ∧
    (∃ rest, (routeMessage locW engC5 ⟨some QnADialogName, false⟩ none
        { type := ActivityTypes.message, text := some "hello" } "en").trace =
      Action.continueDialog :: Action.recognizeCall "en" :: rest) ∧
    ((engC5.continueResult 0).status = DialogTurnStatus.complete →
      false = false → engC5.continueResponds 0 = false →
      engC5.interruptResponds = false → engC5.continueResponds 1 = false →
      engC5.isTurnInterrupted (engC5.continueActive 0)
        (effectiveTopIntent engC5 "en") = false →
      (engC5.continueResult 1).status = DialogTurnStatus.empty →
      firesBegin (routeMessage locW engC5 ⟨some QnADialogName, false⟩ none
        { type := ActivityTypes.message, text := some "hello" } "en") = true) :=
  qna_continued_before_classification locW engC5 ⟨some QnADialogName, false⟩ none
    { type := ActivityTypes.message, text := some "hello" } "en"
    rfl (by decide) (by decide)

/-- C6: when the interruption policy reports an interruption on a non-restart,
non-attachment message turn (with no QnA continuation pending): an active
non-Cancel dialog is reprompted in place — the active dialog is unchanged, no
new dialog begins and the default result is returned; an active Cancel dialog
is continued instead, the turn then flowing into fallback dispatch with the
continuation's result; with no active dialog nothing is done for this step. -/
theorem interruption_policy_actions (loc : Localizer) (eng : Engine)
    (dc0 : DCState) (store0 : Option UserData) (activity : Activity)
    (locale : String)
    (hna : ¬((jsToLower (jsTrim (activity.text.getD ""))).length = 0 ∧
      0 < (activity.attachments.getD []).length))
    (hnr : jsToLower (jsTrim (activity.text.getD "")) ≠
      jsToLower (loc.gettext locale "restartCommand")) :
    (∀ d, dc0.activeDialog = some d → d ≠ QnADialogName → d ≠ CancelDialogName →
      eng.isTurnInterrupted (some d) (effectiveTopIntent eng locale) = true →
      routeMessage loc eng dc0 store0 activity locale =
        { turnResult := DIALOG_TURN_RESULT_DEFAULT,
          dc := { activeDialog := some d,
                  responded := (dc0.responded || eng.interruptResponds) ||
                    eng.repromptResponds },
          store := store0,
          trace := [Action.recognizeCall locale, Action.repromptDialog] }) ∧
    (∀ d, dc0.activeDialog = some d → d ≠ QnADialogName → d = CancelDialogName →
      eng.isTurnInterrupted (some d) (effectiveTopIntent eng locale) = true →
      routeMessage loc eng dc0 store0 activity locale =
        { turnResult := (fallbackDispatch eng
            ⟨eng.continueActive 0,
             (dc0.responded || eng.interruptResponds) || eng.continueResponds 0⟩
            store0 (effectiveTopIntent eng locale) (eng.recognize locale).entities
            (eng.continueResult 0)).turnResult,
          dc := (fallbackDispatch eng
            ⟨eng.continueActive 0,
             (dc0.responded || eng.interruptResponds) || eng.continueResponds 0⟩
            store0 (effectiveTopIntent eng locale) (eng.recognize locale).entities
            (eng.continueResult 0)).dc,
          store := (fallbackDispatch eng
            ⟨eng.continueActive 0,
             (dc0.responded || eng.interruptResponds) || eng.continueResponds 0⟩
            store0 (effectiveTopIntent eng locale) (eng.recognize locale).entities
            (eng.continueResult 0)).store,
          trace := Action.recognizeCall locale :: Action.continueDialog ::
            (fallbackDispatch eng
            ⟨eng.continueActive 0,
             (dc0.responded || eng.interruptResponds) || eng.continueResponds 0⟩
            store0 (effectiveTopIntent eng locale) (eng.recognize locale).entities
            (eng.continueResult 0)).trace }) ∧
    (dc0.activeDialog = none →
      eng.isTurnInterrupted none (effectiveTopIntent eng locale) = true →
      routeMessage loc eng dc0 store0 activity locale =
        { turnResult := DIALOG_TURN_RESULT_DEFAULT,
          dc := { activeDialog := none,
                  responded := dc0.responded || eng.interruptResponds },
          store := store0,
          trace := [Action.recognizeCall locale] }) := by
  refine ⟨?_, ?_, ?_⟩
  · intro d hd hdq hdc hint
    have hq : qnaContinue eng dc0 = (DIALOG_TURN_RESULT_DEFAULT, dc0, [], 0) := by
      unfold qnaContinue
      rw [if_neg]
      rw [hd]
      simp [hdq]
    have hfb := fallbackDispatch_inert eng
      ⟨some d, (dc0.responded || eng.interruptResponds) || eng.repromptResponds⟩
      store0 (LuisRecognizer.topIntent (eng.recognize locale) "None"
        LUIS_CONFIDENCE_THRESHOLD)
      (eng.recognize locale).entities DIALOG_TURN_RESULT_DEFAULT (Or.inl rfl)
    simp only [effectiveTopIntent] at hint ⊢
    simp only [routeMessage]
    rw [if_neg hna, if_neg hnr]
    simp [hq, hd, hint, hdc, interruptionStep, hfb]
  · intro d hd hdq hdc hint
    have hq : qnaContinue eng dc0 = (DIALOG_TURN_RESULT_DEFAULT, dc0, [], 0) := by
      unfold qnaContinue
      rw [if_neg]
      rw [hd]
      simp [hdq]
    simp only [effectiveTopIntent] at hint ⊢
    simp only [routeMessage]
    rw [if_neg hna, if_neg hnr]
    simp [hq, hd, hint, hdc, interruptionStep]
  · intro hd hint
    have hq : qnaContinue eng dc0 = (DIALOG_TURN_RESULT_DEFAULT, dc0, [], 0) := by
      unfold qnaContinue
      rw [if_neg]
      rw [hd]
      simp
    have hfb := fallbackDispatch_inert eng
      ⟨none, dc0.responded || eng.interruptResponds⟩
      store0 (LuisRecognizer.topIntent (eng.recognize locale) "None"
        LUIS_CONFIDENCE_THRESHOLD)
      (eng.recognize locale).entities DIALOG_TURN_RESULT_DEFAULT (Or.inl rfl)
    simp only [effectiveTopIntent] at hint ⊢
    simp only [routeMessage]
    rw [if_neg hna, if_neg hnr]
    simp [hq, hd, hint, interruptionStep, hfb]

/-- An engine instantiating the C6 scenarios: the policy always reports an
interruption. -/
def engC6 : Engine :=
  { continueResult := fun _ => { status := DialogTurnStatus.waiting }
    continueActive := fun _ => none
    continueResponds := fun _ => false
    beginResult := fun _ => { status := DialogTurnStatus.waiting, result := some 3 }
    beginActive := fun n => some n
    beginResponds := fun _ => false
    repromptResponds := false
    recognize := fun _ => { intents := [], entities := 0 }
    isTurnInterrupted := fun _ _ => true
    interruptResponds := false }

theorem interruption_policy_actions_witness :
    routeMessage locW engC6 ⟨some GreetingDialogName, false⟩ none
        { type := ActivityTypes.message, text := some "hello" } "en" =
      { turnResult := DIALOG_TURN_RESULT_DEFAULT,
        dc := { activeDialog := some GreetingDialogName, responded := false },
        store := none,
        trace := [Action.recognizeCall "en", Action.repromptDialog] } :=
  (interruption_policy_actions locW engC6 ⟨some GreetingDialogName, false⟩ none
      { type := ActivityTypes.message, text := some "hello" } "en"
      (by decide) (by decide)).1
    GreetingDialogName rfl (by decide) (by decide) rfl

end CorePlus
